import Mathlib

set_option autoImplicit false

universe u v

namespace Awc

/-- Modelled from the spec: protocol-level request metadata (method, target, headers,
version), excluding the body. The concrete RequestHead type lives in actix-http
message.rs, outside the adapter slice; only its uri and its header collection are
observed by src/awc/src/connect.rs. -/
structure RequestHead where
  method : String
  uri : String
  version : String
  headers : List (String × String)
  deriving DecidableEq

/-- Modelled from the spec: status, headers, version returned by a completed exchange
or upgrade handshake. The concrete ResponseHead type lives outside the slice and is
forwarded opaquely by src/awc/src/connect.rs. -/
structure ResponseHead where
  status : Nat
  version : String
  headers : List (String × String)
  deriving DecidableEq

/-- Modelled from the spec: owned-head versus shared-head-with-overlay request
representations. The constructors mirror the two uses in src/awc/src/connect.rs:
RequestHeadType::from(head) for the owned variant and
RequestHeadType::Rc(head, extra_headers) for the shared variant; the enum itself is
declared in actix-http message.rs, outside the slice. -/
inductive RequestHeadType where
  | owned (head : RequestHead)
  | rc (head : RequestHead) (extraHeaders : Option (List (String × String)))
  deriving DecidableEq

/-- Conversion performed by RequestHeadType::from(head): an owned head becomes the
owned variant unchanged. -/
def RequestHeadType.fromHead (head : RequestHead) : RequestHeadType :=
  RequestHeadType.owned head

/-- The head value backing a RequestHeadType variant (the shared head for the rc
variant); used to state that the overlay never mutates the shared head. -/
def RequestHeadType.sharedHead : RequestHeadType → RequestHead
  | RequestHeadType.owned h => h
  | RequestHeadType.rc h _ => h

/-- Modelled from the spec: resolution/dial/pool-exhaustion failures, owned by the
connector collaborator (actix-http client error.rs is outside the slice), abstracted
to a message. -/
structure ConnectError where
  msg : String
  deriving DecidableEq

/-- Modelled from the spec: protocol-level failures during request/response exchange
or upgrade handshake, owned by the connection collaborator, abstracted to a message. -/
structure ExchangeError where
  msg : String
  deriving DecidableEq

/-- Modelled from the spec: the single SendRequestError taxonomy at the adapter
boundary. A dial failure is wrapped as one variant (the From conversion applied by
from_err in src/awc/src/connect.rs) and an exchange/upgrade failure arrives as a
distinct variant; the concrete enum lives in actix-http client error.rs, outside the
slice. -/
inductive SendRequestError where
  | connect (e : ConnectError)
  | send (e : ExchangeError)
  deriving DecidableEq

/-- Connect request handed to the connector service: target uri plus optional
pre-resolved address (src/actix-http/src/client/mod.rs, pub struct Connect). The
address is abstracted to a string. -/
structure Connect where
  uri : String
  addr : Option String
  deriving DecidableEq

/-- Request body producer, abstracted to its byte content. -/
abbrev Body := List Nat

/-- Response body stream, abstracted to its byte content. -/
abbrev Payload := List Nat

/-- Modelled from the spec: the caller-facing response value combining the returned
response head and the body stream (awc response.rs is outside the slice; the spec
produces ClientResponse with head and bodyStream to the caller). -/
structure ClientResponse where
  head : ResponseHead
  payload : Payload
  deriving DecidableEq

/-- Constructor used by the adapter: ClientResponse::new(head, payload) stores both
components unchanged. -/
def ClientResponse.new (head : ResponseHead) (payload : Payload) : ClientResponse :=
  ⟨head, payload⟩

/-- An io-level failure returned by a transport operation, abstracted to a message. -/
structure IoError where
  msg : String
  deriving DecidableEq

/-- Readiness outcome of a poll-based operation (futures 0.1 Async): ready or not
ready yet. -/
inductive Asy where
  | ready
  | notReady
  deriving DecidableEq

/-- State-passing model of the AsyncRead + AsyncWrite capability set of a concrete
bidirectional transport (actix_codec::AsyncRead/AsyncWrite as used in
src/awc/src/connect.rs): read fills a buffer of the given capacity, write consumes
bytes and reports how many were accepted, flush and shutdown act on the transport
state. -/
structure AsyncRw (σ : Type) where
  read : σ → Nat → Except IoError (List Nat × σ)
  prepareUninitializedBuffer : σ → Nat → Bool
  write : σ → List Nat → Except IoError (Nat × σ)
  flush : σ → Except IoError σ
  shutdown : σ → Except IoError (Asy × σ)

/-- Socket wrapper over one concrete transport value together with its capability set
(src/awc/src/connect.rs, struct Socket wrapping a T that is AsyncRead + AsyncWrite). -/
structure Socket (σ : Type) where
  ops : AsyncRw σ
  inner : σ

/-- AsyncSocket::as_read for Socket: the read view is the socket itself. -/
def Socket.as_read {σ : Type} (s : Socket σ) : Socket σ := s

/-- AsyncSocket::as_read_mut for Socket: the mutable read view is the socket itself. -/
def Socket.as_read_mut {σ : Type} (s : Socket σ) : Socket σ := s

/-- AsyncSocket::as_write for Socket: the write view is the socket itself. -/
def Socket.as_write {σ : Type} (s : Socket σ) : Socket σ := s

/-- Type-erased transport: owns exactly one concrete transport of a hidden carrier
type behind the erased AsyncSocket interface (src/awc/src/connect.rs, pub struct
BoxedSocket holding a Box of dyn AsyncSocket). -/
structure BoxedSocket where
  carrier : Type
  inner : Socket carrier

/-- io::Read::read for BoxedSocket: delegates through as_read_mut to the wrapped
concrete transport, threading its state. -/
def BoxedSocket.read (b : BoxedSocket) (n : Nat) :
    Except IoError (List Nat × BoxedSocket) :=
  match (b.inner.as_read_mut).ops.read (b.inner.as_read_mut).inner n with
  | Except.error e => Except.error e
  | Except.ok (bytes, s) => Except.ok (bytes, ⟨b.carrier, { b.inner with inner := s }⟩)

/-- AsyncRead::prepare_uninitialized_buffer for BoxedSocket: delegates through
as_read to the wrapped concrete transport. -/
def BoxedSocket.prepareUninitializedBuffer (b : BoxedSocket) (n : Nat) : Bool :=
  (b.inner.as_read).ops.prepareUninitializedBuffer (b.inner.as_read).inner n

/-- io::Write::write for BoxedSocket: delegates through as_write to the wrapped
concrete transport, threading its state. -/
def BoxedSocket.write (b : BoxedSocket) (buf : List Nat) :
    Except IoError (Nat × BoxedSocket) :=
  match (b.inner.as_write).ops.write (b.inner.as_write).inner buf with
  | Except.error e => Except.error e
  | Except.ok (n, s) => Except.ok (n, ⟨b.carrier, { b.inner with inner := s }⟩)

/-- io::Write::flush for BoxedSocket: delegates through as_write to the wrapped
concrete transport, threading its state. -/
def BoxedSocket.flush (b : BoxedSocket) : Except IoError BoxedSocket :=
  match (b.inner.as_write).ops.flush (b.inner.as_write).inner with
  | Except.error e => Except.error e
  | Except.ok s => Except.ok ⟨b.carrier, { b.inner with inner := s }⟩

/-- AsyncWrite::shutdown for BoxedSocket: delegates through as_write to the wrapped
concrete transport, threading its state. -/
def BoxedSocket.shutdown (b : BoxedSocket) : Except IoError (Asy × BoxedSocket) :=
  match (b.inner.as_write).ops.shutdown (b.inner.as_write).inner with
  | Except.error e => Except.error e
  | Except.ok (a, s) => Except.ok (a, ⟨b.carrier, { b.inner with inner := s }⟩)

/-- A fmt::Formatter abstracted to its output accumulator. -/
structure Formatter where
  out : String
  deriving DecidableEq

/-- fmt::Formatter write: append text to the accumulated output. -/
def Formatter.write (f : Formatter) (s : String) : Formatter :=
  ⟨f.out ++ s⟩

/-- Debug rendering of BoxedSocket (src/awc/src/connect.rs, impl fmt::Debug for
BoxedSocket): writes the fixed label and inspects neither the carrier type nor the
wrapped state. -/
def BoxedSocket.fmtDebug (_b : BoxedSocket) (f : Formatter) : Formatter :=
  f.write ("BoxedSocket")

/-- Framed transport pairing a codec with an io value; only the io parameter is
touched by this slice (actix_codec::Framed with ClientCodec). -/
structure Framed (α : Type u) where
  io : α

/-- Framed::map_io as used by the tunnel operations: replace the io value, keeping
everything else. -/
def Framed.map_io {α : Type u} {β : Type v} (fr : Framed α) (f : α → β) : Framed β :=
  ⟨f fr.io⟩

/-- Modelled from the spec: the one-shot session capability returned by a successful
dial, exposing exchange (Connection::send_request) and upgrade
(Connection::open_tunnel) with the signatures used by src/awc/src/connect.rs; the
trait itself is declared in actix-http client connection.rs, outside the slice. The
ioOps field carries the AsyncRead + AsyncWrite capability of the associated Io type. -/
structure Connection (T : Type) where
  ioOps : AsyncRw T
  sendRequest : RequestHeadType → Body → Except SendRequestError (ResponseHead × Payload)
  openTunnel : RequestHeadType → Except SendRequestError (ResponseHead × Framed T)

/-- One observable collaborator call issued by an adapter operation: a dial on the
connector service, an exchange (Connection::send_request) or an upgrade
(Connection::open_tunnel) on the dialed connection. -/
inductive Event where
  | dial (c : Connect)
  | connSendRequest (head : RequestHeadType) (body : Body)
  | connOpenTunnel (head : RequestHeadType)
  deriving DecidableEq

/-- True exactly on dial events. -/
def Event.isDial : Event → Bool
  | Event.dial _ => true
  | _ => false

/-- True exactly on connection calls (exchange or upgrade). -/
def Event.isConnCall : Event → Bool
  | Event.connSendRequest _ _ => true
  | Event.connOpenTunnel _ => true
  | _ => false

/-- ConnectorWrapper over a connector service: call dials a Connect target and yields
a Connection or a ConnectError (src/awc/src/connect.rs, pub struct ConnectorWrapper
wrapping a Service with Request = Connect and Error = ConnectError). -/
structure ConnectorWrapper (T : Type) where
  call : Connect → Except ConnectError (Connection T)

/-- send_request (src/awc/src/connect.rs, impl Connect for ConnectorWrapper): build
the connect target from the head uri and the optional address, dial, wrap a dial
failure through from_err, otherwise perform one exchange with the owned head variant
and combine the returned head and payload into a ClientResponse. The second component
records the collaborator calls issued, in order. -/
def ConnectorWrapper.send_request {T : Type} (t : ConnectorWrapper T)
    (head : RequestHead) (body : Body) (addr : Option String) :
    Except SendRequestError ClientResponse × List Event :=
  let target : Connect := ⟨head.uri, addr⟩
  match t.call target with
  | Except.error e =>
      (Except.error (SendRequestError.connect e), [Event.dial target])
  | Except.ok connection =>
      (match connection.sendRequest (RequestHeadType.fromHead head) body with
       | Except.error e => Except.error e
       | Except.ok (h, p) => Except.ok (ClientResponse.new h p),
       [Event.dial target, Event.connSendRequest (RequestHeadType.fromHead head) body])

/-- send_request_extra (src/awc/src/connect.rs): same control flow as send_request,
but the shared head and the optional extra headers are forwarded to the connection as
the rc variant, both unmodified. -/
def ConnectorWrapper.send_request_extra {T : Type} (t : ConnectorWrapper T)
    (head : RequestHead) (extraHeaders : Option (List (String × String)))
    (body : Body) (addr : Option String) :
    Except SendRequestError ClientResponse × List Event :=
  let target : Connect := ⟨head.uri, addr⟩
  match t.call target with
  | Except.error e =>
      (Except.error (SendRequestError.connect e), [Event.dial target])
  | Except.ok connection =>
      (match connection.sendRequest (RequestHeadType.rc head extraHeaders) body with
       | Except.error e => Except.error e
       | Except.ok (h, p) => Except.ok (ClientResponse.new h p),
       [Event.dial target,
        Event.connSendRequest (RequestHeadType.rc head extraHeaders) body])

/-- open_tunnel (src/awc/src/connect.rs): same dial step; on success performs one
upgrade with the owned head variant and wraps the io of the returned framed transport
into a BoxedSocket via map_io. -/
def ConnectorWrapper.open_tunnel {T : Type} (t : ConnectorWrapper T)
    (head : RequestHead) (addr : Option String) :
    Except SendRequestError (ResponseHead × Framed BoxedSocket) × List Event :=
  let target : Connect := ⟨head.uri, addr⟩
  match t.call target with
  | Except.error e =>
      (Except.error (SendRequestError.connect e), [Event.dial target])
  | Except.ok connection =>
      (match connection.openTunnel (RequestHeadType.fromHead head) with
       | Except.error e => Except.error e
       | Except.ok (h, framed) =>
           Except.ok (h, framed.map_io (fun io => ⟨T, ⟨connection.ioOps, io⟩⟩)),
       [Event.dial target, Event.connOpenTunnel (RequestHeadType.fromHead head)])

/-- open_tunnel_extra (src/awc/src/connect.rs): same as open_tunnel but forwarding
the shared head and the optional extra headers as the rc variant, both unmodified. -/
def ConnectorWrapper.open_tunnel_extra {T : Type} (t : ConnectorWrapper T)
    (head : RequestHead) (extraHeaders : Option (List (String × String)))
    (addr : Option String) :
    Except SendRequestError (ResponseHead × Framed BoxedSocket) × List Event :=
  let target : Connect := ⟨head.uri, addr⟩
  match t.call target with
  | Except.error e =>
      (Except.error (SendRequestError.connect e), [Event.dial target])
  | Except.ok connection =>
      (match connection.openTunnel (RequestHeadType.rc head extraHeaders) with
       | Except.error e => Except.error e
       | Except.ok (h, framed) =>
           Except.ok (h, framed.map_io (fun io => ⟨T, ⟨connection.ioOps, io⟩⟩)),
       [Event.dial target,
        Event.connOpenTunnel (RequestHeadType.rc head extraHeaders)])

/-- Trivial AsyncRead + AsyncWrite capability on the unit transport, for connection
doubles whose io is never used. -/
def unitRw : AsyncRw Unit :=
  ⟨fun _ _ => Except.ok ([], ()), fun _ _ => false,
   fun _ bs => Except.ok (bs.length, ()),
   fun _ => Except.ok (),
   fun _ => Except.ok (Asy.ready, ())⟩

/-- Scenario head: method GET, target http://example.test/, no extra headers. -/
def headA : RequestHead :=
  ⟨"GET", "http://example.test/", "HTTP/1.1", []⟩

/-- Scenario response head: status 200. -/
def respHead200 : ResponseHead :=
  ⟨200, "HTTP/1.1", []⟩

/-- Connection double whose exchange and upgrade both succeed with status 200. -/
def connOk200 : Connection Unit :=
  ⟨unitRw, fun _ _ => Except.ok (respHead200, []),
   fun _ => Except.ok (respHead200, ⟨()⟩)⟩

/-- Connector double whose dial always succeeds with the status-200 connection. -/
def wrapOk200 : ConnectorWrapper Unit :=
  ⟨fun _ => Except.ok connOk200⟩

/-- Connector double whose dial always fails with a refused error. -/
def wrapRefused : ConnectorWrapper Unit :=
  ⟨fun _ => Except.error ⟨"refused"⟩⟩

/-- Connection double whose exchange and upgrade both fail with a protocol error. -/
def connProtoFail : Connection Unit :=
  ⟨unitRw, fun _ _ => Except.error (SendRequestError.send ⟨"proto"⟩),
   fun _ => Except.error (SendRequestError.send ⟨"proto"⟩)⟩

/-- Connector double whose dial succeeds with the failing-exchange connection. -/
def wrapProtoFail : ConnectorWrapper Unit :=
  ⟨fun _ => Except.ok connProtoFail⟩

/-- C1: if the connector dial fails with a ConnectError, every one of the four
adapter operations resolves to the SendRequestError variant wrapping that connect
failure, and its trace consists of the single dial event: no exchange and no upgrade
is ever invoked on any Connection. -/
theorem dial_failure_wraps_connect_error {T : Type} (t : ConnectorWrapper T)
    (head : RequestHead) (extra : Option (List (String × String)))
    (body : Body) (addr : Option String) (e : ConnectError)
    (hdial : t.call ⟨head.uri, addr⟩ = Except.error e) :
    t.send_request head body addr
      = (Except.error (SendRequestError.connect e), [Event.dial ⟨head.uri, addr⟩]) ∧
    t.send_request_extra head extra body addr
      = (Except.error (SendRequestError.connect e), [Event.dial ⟨head.uri, addr⟩]) ∧
    t.open_tunnel head addr
      = (Except.error (SendRequestError.connect e), [Event.dial ⟨head.uri, addr⟩]) ∧
    t.open_tunnel_extra head extra addr
      = (Except.error (SendRequestError.connect e), [Event.dial ⟨head.uri, addr⟩]) := by
  refine ⟨?_, ?_, ?_, ?_⟩ <;>
    simp [ConnectorWrapper.send_request, ConnectorWrapper.send_request_extra,
      ConnectorWrapper.open_tunnel, ConnectorWrapper.open_tunnel_extra, hdial]

/-- Witness for C1: the refused connector double on the scenario head. -/
theorem dial_failure_wraps_connect_error_witness :
    wrapRefused.send_request headA [] none
      = (Except.error (SendRequestError.connect ⟨"refused"⟩),
         [Event.dial ⟨"http://example.test/", none⟩]) :=
  (dial_failure_wraps_connect_error wrapRefused headA none [] none ⟨"refused"⟩ rfl).1

/-- C2: when dial succeeds and the connection exchange succeeds with a head and a
payload, send_request (and send_request_extra) resolve to a ClientResponse built from
exactly that head and payload, and the head stored in the ClientResponse is the
returned head with no field altered. -/
theorem exchange_success_head_preserved {T : Type} (t : ConnectorWrapper T)
    (conn : Connection T) (head : RequestHead)
    (extra : Option (List (String × String))) (body : Body) (addr : Option String)
    (rh rh2 : ResponseHead) (p p2 : Payload)
    (hdial : t.call ⟨head.uri, addr⟩ = Except.ok conn)
    (hex : conn.sendRequest (RequestHeadType.fromHead head) body = Except.ok (rh, p))
    (hex2 : conn.sendRequest (RequestHeadType.rc head extra) body
      = Except.ok (rh2, p2)) :
    (t.send_request head body addr).1 = Except.ok (ClientResponse.new rh p) ∧
    (t.send_request_extra head extra body addr).1
      = Except.ok (ClientResponse.new rh2 p2) ∧
    (ClientResponse.new rh p).head = rh ∧
    (ClientResponse.new rh2 p2).head = rh2 := by
  refine ⟨?_, ?_, rfl, rfl⟩ <;>
    simp [ConnectorWrapper.send_request, ConnectorWrapper.send_request_extra,
      hdial, hex, hex2]

/-- Witness for C2, scenario A: GET http://example.test/ with no address against a
double whose exchange returns status 200 resolves to a ClientResponse with status
200. -/
theorem exchange_success_head_preserved_witness :
    (wrapOk200.send_request headA [] none).1
      = Except.ok (ClientResponse.new respHead200 []) ∧
    (ClientResponse.new respHead200 []).head.status = 200 :=
  ⟨(exchange_success_head_preserved wrapOk200 connOk200 headA none [] none
      respHead200 respHead200 [] [] rfl rfl rfl).1, rfl⟩

/-- C3: under any effective-header interpretation under which the overlay yields a
header set equivalent to the owned head alone, send_request and send_request_extra
forward head variants with identical effective headers, and the shared head backing
the forwarded rc variant still carries exactly the input head collection: the overlay
never mutates the shared head. -/
theorem overlay_equivalent_headers_unchanged {T : Type} (t : ConnectorWrapper T)
    (conn : Connection T) (head : RequestHead)
    (extra : Option (List (String × String))) (body : Body) (addr : Option String)
    (eff : RequestHeadType → List (String × String))
    (hdial : t.call ⟨head.uri, addr⟩ = Except.ok conn)
    (heq : eff (RequestHeadType.rc head extra) = eff (RequestHeadType.owned head)) :
    (t.send_request head body addr).2
      = [Event.dial ⟨head.uri, addr⟩,
         Event.connSendRequest (RequestHeadType.owned head) body] ∧
    (t.send_request_extra head extra body addr).2
      = [Event.dial ⟨head.uri, addr⟩,
         Event.connSendRequest (RequestHeadType.rc head extra) body] ∧
    eff (RequestHeadType.rc head extra) = eff (RequestHeadType.owned head) ∧
    (RequestHeadType.rc head extra).sharedHead.headers = head.headers := by
  refine ⟨?_, ?_, heq, rfl⟩ <;>
    simp [ConnectorWrapper.send_request, ConnectorWrapper.send_request_extra,
      RequestHeadType.fromHead, hdial]

/-- Witness for C3: the status-200 double with an empty overlay and a trivial
effective-header interpretation. -/
theorem overlay_equivalent_headers_unchanged_witness :
    (wrapOk200.send_request_extra headA none [] none).2
      = [Event.dial ⟨"http://example.test/", none⟩,
         Event.connSendRequest (RequestHeadType.rc headA none) []] :=
  (overlay_equivalent_headers_unchanged wrapOk200 connOk200 headA none [] none
    (fun _ => []) rfl rfl).2.1

/-- C4: the connect request handed to the connector is exactly the Connect value
built from the head uri and the given optional address, and on dial success each
operation issues exactly one exchange (send operations) or one upgrade (tunnel
operations) carrying the given head variant. -/
theorem connect_target_passthrough {T : Type} (t : ConnectorWrapper T)
    (conn : Connection T) (head : RequestHead)
    (extra : Option (List (String × String))) (body : Body) (addr : Option String)
    (hdial : t.call ⟨head.uri, addr⟩ = Except.ok conn) :
    (t.send_request head body addr).2
      = [Event.dial ⟨head.uri, addr⟩,
         Event.connSendRequest (RequestHeadType.fromHead head) body] ∧
    (t.send_request_extra head extra body addr).2
      = [Event.dial ⟨head.uri, addr⟩,
         Event.connSendRequest (RequestHeadType.rc head extra) body] ∧
    (t.open_tunnel head addr).2
      = [Event.dial ⟨head.uri, addr⟩,
         Event.connOpenTunnel (RequestHeadType.fromHead head)] ∧
    (t.open_tunnel_extra head extra addr).2
      = [Event.dial ⟨head.uri, addr⟩,
         Event.connOpenTunnel (RequestHeadType.rc head extra)] := by
  refine ⟨?_, ?_, ?_, ?_⟩ <;>
    simp [ConnectorWrapper.send_request, ConnectorWrapper.send_request_extra,
      ConnectorWrapper.open_tunnel, ConnectorWrapper.open_tunnel_extra, hdial]

/-- Witness for C4: the status-200 double on the scenario head. -/
theorem connect_target_passthrough_witness :
    (wrapOk200.open_tunnel headA none).2
      = [Event.dial ⟨"http://example.test/", none⟩,
         Event.connOpenTunnel (RequestHeadType.fromHead headA)] :=
  (connect_target_passthrough wrapOk200 connOk200 headA none [] none rfl).2.2.1

/-- C5: every invocation of each of the four adapter operations issues exactly one
dial and at most one connection call (exchange or upgrade), on every path. -/
theorem one_dial_at_most_one_conn_call {T : Type} (t : ConnectorWrapper T)
    (head : RequestHead) (extra : Option (List (String × String)))
    (body : Body) (addr : Option String) :
    ((t.send_request head body addr).2.countP Event.isDial = 1 ∧
     (t.send_request head body addr).2.countP Event.isConnCall ≤ 1) ∧
    ((t.send_request_extra head extra body addr).2.countP Event.isDial = 1 ∧
     (t.send_request_extra head extra body addr).2.countP Event.isConnCall ≤ 1) ∧
    ((t.open_tunnel head addr).2.countP Event.isDial = 1 ∧
     (t.open_tunnel head addr).2.countP Event.isConnCall ≤ 1) ∧
    ((t.open_tunnel_extra head extra addr).2.countP Event.isDial = 1 ∧
     (t.open_tunnel_extra head extra addr).2.countP Event.isConnCall ≤ 1) := by
  rcases hdial : t.call ⟨head.uri, addr⟩ with e | conn <;>
    refine ⟨⟨?_, ?_⟩, ⟨?_, ?_⟩, ⟨?_, ?_⟩, ⟨?_, ?_⟩⟩ <;>
      simp [ConnectorWrapper.send_request, ConnectorWrapper.send_request_extra,
        ConnectorWrapper.open_tunnel, ConnectorWrapper.open_tunnel_extra, hdial,
        List.countP_cons, List.countP_nil, Event.isDial, Event.isConnCall]

/-- C10: the shared head and the optional overlay header set are forwarded to the
connection as the unmodified rc pair by both send_request_extra and
open_tunnel_extra; no merging happens in the adapter. -/
theorem extra_headers_forwarded_unmerged {T : Type} (t : ConnectorWrapper T)
    (conn : Connection T) (head : RequestHead)
    (extra : Option (List (String × String))) (body : Body) (addr : Option String)
    (hdial : t.call ⟨head.uri, addr⟩ = Except.ok conn) :
    (t.send_request_extra head extra body addr).2
      = [Event.dial ⟨head.uri, addr⟩,
         Event.connSendRequest (RequestHeadType.rc head extra) body] ∧
    (t.open_tunnel_extra head extra addr).2
      = [Event.dial ⟨head.uri, addr⟩,
         Event.connOpenTunnel (RequestHeadType.rc head extra)] := by
  refine ⟨?_, ?_⟩ <;>
    simp [ConnectorWrapper.send_request_extra, ConnectorWrapper.open_tunnel_extra,
      hdial]

/-- Witness for C10: the status-200 double with a one-entry overlay. -/
theorem extra_headers_forwarded_unmerged_witness :
    (wrapOk200.open_tunnel_extra headA (some [("x-a", "1")]) none).2
      = [Event.dial ⟨"http://example.test/", none⟩,
         Event.connOpenTunnel (RequestHeadType.rc headA (some [("x-a", "1")]))] :=
  (extra_headers_forwarded_unmerged wrapOk200 connOk200 headA
    (some [("x-a", "1")]) [] none rfl).2

/-- In-memory transport double: input holds the bytes available to read, output
records the bytes written so far. -/
structure BufState where
  input : List Nat
  output : List Nat
  deriving DecidableEq

/-- AsyncRead + AsyncWrite capability of the in-memory transport double: read takes
bytes from the front of input, write appends to output and accepts every byte, flush
is a no-op, shutdown is immediately ready. -/
def bufRw : AsyncRw BufState :=
  ⟨fun s n => Except.ok (s.input.take n, ⟨s.input.drop n, s.output⟩),
   fun _ _ => false,
   fun s bs => Except.ok (bs.length, ⟨s.input, s.output ++ bs⟩),
   fun s => Except.ok s,
   fun s => Except.ok (Asy.ready, s)⟩

/-- The in-memory transport double wrapped into the type-erased BoxedSocket. -/
def bufBoxed (s : BufState) : BoxedSocket :=
  ⟨BufState, ⟨bufRw, s⟩⟩

/-- C6: every BoxedSocket operation returns exactly what the wrapped concrete
transport operation returns on the wrapped state (read, write, flush, shutdown and
prepare_uninitialized_buffer all delegate), and through the in-memory double the
erasure boundary is round-trip faithful: bytes written through the BoxedSocket land
in the concrete output buffer, and bytes available in the concrete input buffer come
back out of BoxedSocket reads. -/
theorem boxed_socket_delegates :
    (∀ (σ : Type) (ops : AsyncRw σ) (st : σ) (n : Nat),
      BoxedSocket.read ⟨σ, ⟨ops, st⟩⟩ n
        = Except.map (fun p => (p.1, (⟨σ, ⟨ops, p.2⟩⟩ : BoxedSocket)))
            (ops.read st n)) ∧
    (∀ (σ : Type) (ops : AsyncRw σ) (st : σ) (buf : List Nat),
      BoxedSocket.write ⟨σ, ⟨ops, st⟩⟩ buf
        = Except.map (fun p => (p.1, (⟨σ, ⟨ops, p.2⟩⟩ : BoxedSocket)))
            (ops.write st buf)) ∧
    (∀ (σ : Type) (ops : AsyncRw σ) (st : σ),
      BoxedSocket.flush ⟨σ, ⟨ops, st⟩⟩
        = Except.map (fun s => (⟨σ, ⟨ops, s⟩⟩ : BoxedSocket)) (ops.flush st)) ∧
    (∀ (σ : Type) (ops : AsyncRw σ) (st : σ),
      BoxedSocket.shutdown ⟨σ, ⟨ops, st⟩⟩
        = Except.map (fun p => (p.1, (⟨σ, ⟨ops, p.2⟩⟩ : BoxedSocket)))
            (ops.shutdown st)) ∧
    (∀ (σ : Type) (ops : AsyncRw σ) (st : σ) (n : Nat),
      BoxedSocket.prepareUninitializedBuffer ⟨σ, ⟨ops, st⟩⟩ n
        = ops.prepareUninitializedBuffer st n) ∧
    (∀ (s : BufState) (bs : List Nat),
      BoxedSocket.write (bufBoxed s) bs
        = Except.ok (bs.length, bufBoxed ⟨s.input, s.output ++ bs⟩)) ∧
    (∀ (s : BufState) (n : Nat),
      BoxedSocket.read (bufBoxed s) n
        = Except.ok (s.input.take n, bufBoxed ⟨s.input.drop n, s.output⟩)) := by
  refine ⟨?_, ?_, ?_, ?_, fun σ ops st n => rfl, fun s bs => rfl, fun s n => rfl⟩
  · intro σ ops st n
    rcases h : ops.read st n with e | ⟨bs, s2⟩ <;>
      simp [BoxedSocket.read, Socket.as_read_mut, h, Except.map]
  · intro σ ops st buf
    rcases h : ops.write st buf with e | ⟨k, s2⟩ <;>
      simp [BoxedSocket.write, Socket.as_write, h, Except.map]
  · intro σ ops st
    rcases h : ops.flush st with e | s2 <;>
      simp [BoxedSocket.flush, Socket.as_write, h, Except.map]
  · intro σ ops st
    rcases h : ops.shutdown st with e | ⟨a, s2⟩ <;>
      simp [BoxedSocket.shutdown, Socket.as_write, h, Except.map]

/-- C7: the adapter folds a dial failure into the connect variant of
SendRequestError and propagates an exchange failure unchanged in its distinct
variant, with no recovery, retry, or default response on either path; the two
variants never coincide, so a caller can always distinguish a dial failure from an
exchange failure. -/
theorem error_taxonomy_distinct {T : Type} (t1 t2 : ConnectorWrapper T)
    (conn : Connection T) (head : RequestHead) (body : Body) (addr : Option String)
    (e : ConnectError) (f : ExchangeError)
    (h1 : t1.call ⟨head.uri, addr⟩ = Except.error e)
    (h2 : t2.call ⟨head.uri, addr⟩ = Except.ok conn)
    (h3 : conn.sendRequest (RequestHeadType.fromHead head) body
      = Except.error (SendRequestError.send f)) :
    (t1.send_request head body addr).1 = Except.error (SendRequestError.connect e) ∧
    (t2.send_request head body addr).1 = Except.error (SendRequestError.send f) ∧
    SendRequestError.connect e ≠ SendRequestError.send f := by
  refine ⟨?_, ?_, by simp⟩ <;>
    simp [ConnectorWrapper.send_request, h1, h2, h3]

/-- Witness for C7: the refused connector double versus the protocol-failure
connection double on the scenario head. -/
theorem error_taxonomy_distinct_witness :
    (wrapRefused.send_request headA [] none).1
      = Except.error (SendRequestError.connect ⟨"refused"⟩) ∧
    (wrapProtoFail.send_request headA [] none).1
      = Except.error (SendRequestError.send ⟨"proto"⟩) :=
  ⟨(error_taxonomy_distinct wrapRefused wrapProtoFail connProtoFail headA [] none
      ⟨"refused"⟩ ⟨"proto"⟩ rfl rfl rfl).1,
   (error_taxonomy_distinct wrapRefused wrapProtoFail connProtoFail headA [] none
      ⟨"refused"⟩ ⟨"proto"⟩ rfl rfl rfl).2.1⟩

/-- C8: the Debug rendering of a BoxedSocket writes the fixed opaque label and
nothing else, independently of the wrapped concrete transport and of its state: any
two wrapped transports render identically. -/
theorem boxed_socket_debug_opaque :
    (∀ (b1 b2 : BoxedSocket) (f : Formatter),
      BoxedSocket.fmtDebug b1 f = BoxedSocket.fmtDebug b2 f) ∧
    (∀ (b : BoxedSocket) (f : Formatter),
      BoxedSocket.fmtDebug b f = ⟨f.out ++ "BoxedSocket"⟩) :=
  ⟨fun _ _ _ => rfl, fun _ _ => rfl⟩

end Awc
